import Mathlib

/-!
# PeelJoy server verification

A shallow embedding of the request-translation layer of the PeelJoy server
(`server.js`).  The repository carries two variants of the server: one
backed by the IconScout API and one backed by the Freepik API.  Both are
embedded here.

JavaScript `a || b` on strings treats `undefined` and `""` as falsy, and
`Math.min` clamps numerically; both are modelled explicitly.  Route
handlers are parameterised by a `net` function standing for the outbound
HTTP call; each handler returns the JSON response it would send together
with the list of provider requests actually issued (the trace), so that
"no network request was attempted" is an observable fact.
-/

namespace PeelJoy

/-- JavaScript truthiness for a string-or-undefined value: `undefined` and
the empty string are falsy. -/
def strFalsy : Option String → Bool
  | none => true
  | some s => s = ""

/-- JavaScript `a || b` where both operands are string-or-undefined. -/
def jsOrS (a b : Option String) : Option String :=
  if strFalsy a then b else a

/-- JavaScript `a || d` where `a` is string-or-undefined and `d` is a
string literal, so the result is always a string. -/
def jsOrD (a : Option String) (d : String) : String :=
  if strFalsy a then d else a.getD ""

/-- JavaScript `a || d` for a number-or-undefined value: `undefined` and
`0` are falsy. -/
def jsOrN (a : Option Nat) (d : Nat) : Nat :=
  match a with
  | some n => if n = 0 then d else n
  | none => d

/-- One entry of a Freepik `thumbnails` array.  Icon thumbnails carry a
numeric `size`, resource thumbnails carry a string `key`; either field may
be absent, as may the `url`. -/
structure Thumbnail where
  size : Option Nat
  key : Option String
  url : Option String
deriving DecidableEq

/-- One item of a Freepik payload, with every field the transforms touch
modelled as optional.  `imageSourceUrl` models the optional chain
`item.image?.source?.url`. -/
structure FreepikItem where
  id : Nat
  description : Option String
  name : Option String
  title : Option String
  filename : Option String
  thumbnails : Option (List Thumbnail)
  imageSourceUrl : Option String
deriving DecidableEq

/-- A Freepik response body: `data` (the items) and `meta` (opaque
pagination passthrough, modelled as a string). -/
structure FreepikPayload where
  data : Option (List FreepikItem)
  meta : Option String
deriving DecidableEq

/-- The normalized asset shape both transforms produce
(`{id, uuid, name, urls: {png_128, png_64, thumb}, preview}`). -/
structure NormalizedAsset where
  id : Nat
  uuid : String
  name : String
  png_128 : Option String
  png_64 : Option String
  thumb : Option String
  preview : Option String
deriving DecidableEq

/-- `item.thumbnails?.find(t => t.size === sz)?.url`. -/
def findThumbBySize (item : FreepikItem) (sz : Nat) : Option String :=
  (item.thumbnails.bind (List.find? fun t => t.size == some sz)).bind (fun t => t.url)

/-- `item.thumbnails?.find(t => t.key === k)?.url`. -/
def findThumbByKey (item : FreepikItem) (k : String) : Option String :=
  (item.thumbnails.bind (List.find? fun t => t.key == some k)).bind (fun t => t.url)

/-- `item.thumbnails?.[0]?.url`. -/
def firstThumbUrl (item : FreepikItem) : Option String :=
  (item.thumbnails.bind List.head?).bind (fun t => t.url)

/-- The per-item body of `transformIconResponse`. -/
def transformIconItem (item : FreepikItem) : NormalizedAsset :=
  { id := item.id
    uuid := toString item.id
    name := jsOrD (jsOrS item.description item.name) "Untitled Icon"
    png_128 := jsOrS (findThumbBySize item 128) (firstThumbUrl item)
    png_64 := jsOrS (findThumbBySize item 64) (firstThumbUrl item)
    thumb := firstThumbUrl item
    preview := firstThumbUrl item }

/-- `transformIconResponse` from the Freepik variant. -/
def transformIconResponse (freepikData : FreepikPayload) : List NormalizedAsset :=
  (freepikData.data.getD []).map transformIconItem

/-- The per-item body of `transformResourceResponse`. -/
def transformResourceItem (item : FreepikItem) : NormalizedAsset :=
  { id := item.id
    uuid := toString item.id
    name := jsOrD (jsOrS item.title item.filename) "Untitled"
    png_128 := jsOrS item.imageSourceUrl (findThumbByKey item "small")
    png_64 := jsOrS item.imageSourceUrl (findThumbByKey item "small")
    thumb := jsOrS item.imageSourceUrl (firstThumbUrl item)
    preview := item.imageSourceUrl }

/-- `transformResourceResponse` from the Freepik variant. -/
def transformResourceResponse (freepikData : FreepikPayload) : List NormalizedAsset :=
  (freepikData.data.getD []).map transformResourceItem

/-- A Freepik provider request: the endpoint path plus the query
parameters the handlers pass to `fetchFromFreepik`.  The `/icons` routes
send the page size as `per_page`, the `/resources` routes send it as
`limit`; the three `filters[...]` keys and `filters[license][freemium]`
are modelled as dedicated fields. -/
structure FreepikRequest where
  endpoint : String
  term : String
  page : Nat
  per_page : Option Nat
  limit : Option Nat
  order : String
  licenseFreemium : Bool
  contentTypeVector : Bool
  contentTypePhoto : Bool
  vectorStyle : Option String
deriving DecidableEq

/-- The projection "which page-size parameter does this request carry":
`per_page` when present, else `limit`. -/
def reqPageSize (r : FreepikRequest) : Option Nat :=
  match r.per_page with
  | some n => some n
  | none => r.limit

/-- Request built by the Freepik `GET /api/icons` handler. -/
def iconsFreepikRequest (q : String) (page pp : Nat) : FreepikRequest :=
  { endpoint := "/icons", term := q, page := page,
    per_page := some (min pp 100), limit := none, order := "relevance",
    licenseFreemium := true, contentTypeVector := false,
    contentTypePhoto := false, vectorStyle := none }

/-- Request built by the Freepik `GET /api/3d-icons` handler. -/
def threeDIconsFreepikRequest (q : String) (page pp : Nat) : FreepikRequest :=
  { endpoint := "/resources", term := q ++ " 3d", page := page,
    per_page := none, limit := some (min pp 100), order := "relevance",
    licenseFreemium := true, contentTypeVector := true,
    contentTypePhoto := false, vectorStyle := some "3d" }

/-- Request built by the Freepik `GET /api/illustrations` handler. -/
def illustrationsFreepikRequest (q : String) (page pp : Nat) : FreepikRequest :=
  { endpoint := "/resources", term := q, page := page,
    per_page := none, limit := some (min pp 100), order := "relevance",
    licenseFreemium := true, contentTypeVector := true,
    contentTypePhoto := false, vectorStyle := none }

/-- Request built by the Freepik `GET /api/lottie` handler: the term is
augmented with " animation motion" because Freepik has no native Lottie
category. -/
def lottieFreepikRequest (q : String) (page pp : Nat) : FreepikRequest :=
  { endpoint := "/resources", term := q ++ " animation motion", page := page,
    per_page := none, limit := some (min pp 100), order := "relevance",
    licenseFreemium := true, contentTypeVector := true,
    contentTypePhoto := false, vectorStyle := none }

/-- The filter set the Freepik `GET /api/search` handler builds for a
non-icon asset value (the if/else-if chain over `asset`). -/
structure FreepikFilters where
  contentTypeVector : Bool := false
  contentTypePhoto : Bool := false
  vectorStyle : Option String := none
deriving DecidableEq

/-- The if/else-if chain of the Freepik `GET /api/search` handler. -/
def searchFreepikFilters (asset : String) : FreepikFilters :=
  if asset = "3d" then { contentTypeVector := true, vectorStyle := some "3d" }
  else if asset = "illustration" ∨ asset = "vector" then { contentTypeVector := true }
  else if asset = "photo" then { contentTypePhoto := true }
  else {}

/-- Request built by the Freepik `GET /api/search` handler: the `/icons`
endpoint for `asset = "icon"`, else the `/resources` endpoint with the
filters of `searchFreepikFilters` and an unmodified term. -/
def searchFreepikRequest (q : String) (page pp : Nat) (asset : String) : FreepikRequest :=
  if asset = "icon" then
    { endpoint := "/icons", term := q, page := page,
      per_page := some (min pp 100), limit := none, order := "relevance",
      licenseFreemium := true, contentTypeVector := false,
      contentTypePhoto := false, vectorStyle := none }
  else
    let filters := searchFreepikFilters asset
    { endpoint := "/resources", term := q, page := page,
      per_page := none, limit := some (min pp 100), order := "relevance",
      licenseFreemium := true, contentTypeVector := filters.contentTypeVector,
      contentTypePhoto := filters.contentTypePhoto, vectorStyle := filters.vectorStyle }

/-- What an axios failure exposes to the catch blocks:
`error.response?.status`, `error.response?.data?.message` and the
transport-level `error.message`. -/
structure UpstreamError where
  status : Option Nat
  dataMessage : Option String
  message : String
deriving DecidableEq

/-- An error escaping `fetchFromFreepik`/`fetchFromIconScout`: either the
locally thrown missing-credential `Error` or an upstream axios failure. -/
inductive FetchError where
  | config (msg : String)
  | upstream (e : UpstreamError)
deriving DecidableEq

/-- How a catch block reads a `FetchError`: a locally thrown `Error` has
no `response`, so its status and structured message read as absent, and
`error.message` is the thrown message. -/
def FetchError.toUpstream : FetchError → UpstreamError
  | .config msg => { status := none, dataMessage := none, message := msg }
  | .upstream e => e

/-- The outbound HTTP layer for the Freepik variant. -/
abbrev FreepikNet := FreepikRequest → Except UpstreamError FreepikPayload

/-- The message of the `Error` thrown when `FREEPIK_API_KEY` is missing. -/
def freepikConfigMsg : String := "FREEPIK_API_KEY environment variable is not set"

/-- `fetchFromFreepik`: checks the credential before any network call.
Returns the outcome together with the list of provider requests actually
issued. -/
def fetchFromFreepik (apiKey : Option String) (net : FreepikNet)
    (req : FreepikRequest) : Except FetchError FreepikPayload × List FreepikRequest :=
  if strFalsy apiKey then (.error (.config freepikConfigMsg), [])
  else
    match net req with
    | .ok d => (.ok d, [req])
    | .error e => (.error (.upstream e), [req])

/-- The JSON envelope every search route sends, together with the HTTP
status it is sent with.  `α` is the element type of `data` (normalized
assets for the Freepik variant, raw provider items for IconScout). -/
structure SearchResponse (α : Type) where
  status : Nat
  success : Bool
  data : List α
  pagination : Option String
  note : Option String
  error : Option String
  message : Option String
deriving DecidableEq

/-- The catch block shared by every search route:
`res.status(error.response?.status || 500)` with body
`{success:false, error: label, message: error.response?.data?.message || error.message, data: []}`. -/
def errorResponse {α : Type} (label : String) (fe : FetchError) : SearchResponse α :=
  let e := fe.toUpstream
  { status := jsOrN e.status 500, success := false, data := [],
    pagination := none, note := none, error := some label,
    message := some (jsOrD e.dataMessage e.message) }

/-- The note string of the Freepik `GET /api/lottie` route. -/
def freepikLottieNote : String :=
  "Freepik does not have native Lottie animations. Showing animated/motion vectors instead."

/-- Freepik `GET /api/icons` handler. -/
def apiIconsFreepik (apiKey : Option String) (net : FreepikNet)
    (q : Option String) (page per_page : Option Nat) :
    SearchResponse NormalizedAsset × List FreepikRequest :=
  match fetchFromFreepik apiKey net
      (iconsFreepikRequest (q.getD "popular") (page.getD 1) (per_page.getD 20)) with
  | (.ok d, tr) =>
      ({ status := 200, success := true, data := transformIconResponse d,
         pagination := some (d.meta.getD ""), note := none,
         error := none, message := none }, tr)
  | (.error fe, tr) => (errorResponse "Failed to fetch icons" fe, tr)

/-- Freepik `GET /api/3d-icons` handler. -/
def api3dIconsFreepik (apiKey : Option String) (net : FreepikNet)
    (q : Option String) (page per_page : Option Nat) :
    SearchResponse NormalizedAsset × List FreepikRequest :=
  match fetchFromFreepik apiKey net
      (threeDIconsFreepikRequest (q.getD "popular") (page.getD 1) (per_page.getD 20)) with
  | (.ok d, tr) =>
      ({ status := 200, success := true, data := transformResourceResponse d,
         pagination := some (d.meta.getD ""), note := none,
         error := none, message := none }, tr)
  | (.error fe, tr) => (errorResponse "Failed to fetch 3D assets" fe, tr)

/-- Freepik `GET /api/illustrations` handler. -/
def apiIllustrationsFreepik (apiKey : Option String) (net : FreepikNet)
    (q : Option String) (page per_page : Option Nat) :
    SearchResponse NormalizedAsset × List FreepikRequest :=
  match fetchFromFreepik apiKey net
      (illustrationsFreepikRequest (q.getD "popular") (page.getD 1) (per_page.getD 20)) with
  | (.ok d, tr) =>
      ({ status := 200, success := true, data := transformResourceResponse d,
         pagination := some (d.meta.getD ""), note := none,
         error := none, message := none }, tr)
  | (.error fe, tr) => (errorResponse "Failed to fetch illustrations" fe, tr)

/-- Freepik `GET /api/lottie` handler: the only success response that
carries a `note`. -/
def apiLottieFreepik (apiKey : Option String) (net : FreepikNet)
    (q : Option String) (page per_page : Option Nat) :
    SearchResponse NormalizedAsset × List FreepikRequest :=
  match fetchFromFreepik apiKey net
      (lottieFreepikRequest (q.getD "popular") (page.getD 1) (per_page.getD 20)) with
  | (.ok d, tr) =>
      ({ status := 200, success := true, data := transformResourceResponse d,
         pagination := some (d.meta.getD ""), note := some freepikLottieNote,
         error := none, message := none }, tr)
  | (.error fe, tr) => (errorResponse "Failed to fetch animations" fe, tr)

/-- Freepik `GET /api/search` handler: icon searches use the `/icons`
endpoint and the icon transform, everything else the `/resources`
endpoint and the resource transform; no branch sets a `note`. -/
def apiSearchFreepik (apiKey : Option String) (net : FreepikNet)
    (q : Option String) (page per_page : Option Nat) (asset : Option String) :
    SearchResponse NormalizedAsset × List FreepikRequest :=
  match fetchFromFreepik apiKey net
      (searchFreepikRequest (q.getD "popular") (page.getD 1) (per_page.getD 20)
        (asset.getD "icon")) with
  | (.ok d, tr) =>
      ({ status := 200, success := true,
         data := if asset.getD "icon" = "icon" then transformIconResponse d
           else transformResourceResponse d,
         pagination := some (d.meta.getD ""), note := none,
         error := none, message := none }, tr)
  | (.error fe, tr) => (errorResponse "Failed to fetch assets" fe, tr)

/-- The IconScout variant passes provider items through untransformed;
they are opaque to the server, so an item is modelled as an opaque
string. -/
abbrev ISItem := String

/-- `response.items` of an IconScout payload: the item array and the
opaque pagination object. -/
structure ISItems where
  data : Option (List ISItem)
  pagination : Option String
deriving DecidableEq

/-- `response` of an IconScout payload. -/
structure ISBody where
  items : Option ISItems
deriving DecidableEq

/-- An IconScout response body, navigated as
`data.response?.items?.data` / `data.response?.items?.pagination`. -/
structure ISPayload where
  response : Option ISBody
deriving DecidableEq

/-- An IconScout provider request: endpoint plus the query parameters the
handlers pass to `fetchFromIconScout`.  Note `per_page` is forwarded
verbatim by every route of this variant. -/
structure IconScoutRequest where
  endpoint : String
  query : String
  asset : String
  page : Nat
  per_page : Nat
  price : String
deriving DecidableEq

/-- The outbound HTTP layer for the IconScout variant. -/
abbrev IconScoutNet := IconScoutRequest → Except UpstreamError ISPayload

/-- The message of the `Error` thrown when `ICONSCOUT_CLIENT_ID` is
missing. -/
def iconscoutConfigMsg : String := "ICONSCOUT_CLIENT_ID environment variable is not set"

/-- `fetchFromIconScout`: checks the credential before any network call.
Returns the outcome together with the list of provider requests actually
issued. -/
def fetchFromIconScout (clientId : Option String) (net : IconScoutNet)
    (req : IconScoutRequest) : Except FetchError ISPayload × List IconScoutRequest :=
  if strFalsy clientId then (.error (.config iconscoutConfigMsg), [])
  else
    match net req with
    | .ok d => (.ok d, [req])
    | .error e => (.error (.upstream e), [req])

/-- The request every IconScout route builds: `/search` with the route's
fixed `asset` value and the raw query parameters. -/
def iconScoutSearchRequest (assetKind q : String) (page pp : Nat) : IconScoutRequest :=
  { endpoint := "/search", query := q, asset := assetKind,
    page := page, per_page := pp, price := "free" }

/-- `data.response?.items?.data || []`. -/
def isItemsData (d : ISPayload) : List ISItem :=
  ((d.response.bind (fun r => r.items)).bind (fun i => i.data)).getD []

/-- `data.response?.items?.pagination || {}`. -/
def isItemsPagination (d : ISPayload) : String :=
  ((d.response.bind (fun r => r.items)).bind (fun i => i.pagination)).getD ""

/-- The success response every IconScout route sends. -/
def isSuccessResponse (d : ISPayload) : SearchResponse ISItem :=
  { status := 200, success := true, data := isItemsData d,
    pagination := some (isItemsPagination d), note := none,
    error := none, message := none }

/-- IconScout `GET /api/icons` handler. -/
def apiIconsIconScout (clientId : Option String) (net : IconScoutNet)
    (q : Option String) (page per_page : Option Nat) :
    SearchResponse ISItem × List IconScoutRequest :=
  match fetchFromIconScout clientId net
      (iconScoutSearchRequest "icon" (q.getD "popular") (page.getD 1) (per_page.getD 20)) with
  | (.ok d, tr) => (isSuccessResponse d, tr)
  | (.error fe, tr) => (errorResponse "Failed to fetch icons" fe, tr)

/-- IconScout `GET /api/3d-icons` handler. -/
def api3dIconsIconScout (clientId : Option String) (net : IconScoutNet)
    (q : Option String) (page per_page : Option Nat) :
    SearchResponse ISItem × List IconScoutRequest :=
  match fetchFromIconScout clientId net
      (iconScoutSearchRequest "3d" (q.getD "popular") (page.getD 1) (per_page.getD 20)) with
  | (.ok d, tr) => (isSuccessResponse d, tr)
  | (.error fe, tr) => (errorResponse "Failed to fetch 3D icons" fe, tr)

/-- IconScout `GET /api/illustrations` handler. -/
def apiIllustrationsIconScout (clientId : Option String) (net : IconScoutNet)
    (q : Option String) (page per_page : Option Nat) :
    SearchResponse ISItem × List IconScoutRequest :=
  match fetchFromIconScout clientId net
      (iconScoutSearchRequest "illustration" (q.getD "popular") (page.getD 1) (per_page.getD 20)) with
  | (.ok d, tr) => (isSuccessResponse d, tr)
  | (.error fe, tr) => (errorResponse "Failed to fetch illustrations" fe, tr)

/-- IconScout `GET /api/lottie` handler: lottie is a native IconScout
asset value, forwarded as `asset: 'lottie'` with no term augmentation and
no note. -/
def apiLottieIconScout (clientId : Option String) (net : IconScoutNet)
    (q : Option String) (page per_page : Option Nat) :
    SearchResponse ISItem × List IconScoutRequest :=
  match fetchFromIconScout clientId net
      (iconScoutSearchRequest "lottie" (q.getD "popular") (page.getD 1) (per_page.getD 20)) with
  | (.ok d, tr) => (isSuccessResponse d, tr)
  | (.error fe, tr) => (errorResponse "Failed to fetch Lottie animations" fe, tr)

/-- IconScout `GET /api/search` handler. -/
def apiSearchIconScout (clientId : Option String) (net : IconScoutNet)
    (q : Option String) (page per_page : Option Nat) (asset : Option String) :
    SearchResponse ISItem × List IconScoutRequest :=
  match fetchFromIconScout clientId net
      (iconScoutSearchRequest (asset.getD "icon") (q.getD "popular") (page.getD 1)
        (per_page.getD 20)) with
  | (.ok d, tr) => (isSuccessResponse d, tr)
  | (.error fe, tr) => (errorResponse "Failed to fetch assets" fe, tr)

/-- The asset kinds the spec's per-kind table speaks about. -/
inductive AssetKind where
  | icon
  | threeD
  | illustration
  | animation
deriving DecidableEq

/-- Whether the Freepik integration has a native provider category for a
kind.  The lottie route's source comment states "Freepik doesn't have
Lottie animations - use animated/motion vectors as alternative"; every
other kind is served by a dedicated endpoint or content-type filter. -/
def freepikHasNativeCategory : AssetKind → Bool
  | .animation => false
  | _ => true

/-- Whether the IconScout integration has a native provider category for
a kind: every route, the lottie route included, forwards its kind
verbatim as the provider's `asset` parameter. -/
def iconScoutHasNativeCategory : AssetKind → Bool
  | _ => true

/-- The in-memory `downloadCounts` object: a partial map from asset id to
count. -/
abbrev DownloadCounts := String → Option Nat

/-- `downloadCounts[assetId] || 0`. -/
def getDownloadCount (counts : DownloadCounts) (assetId : String) : Nat :=
  (counts assetId).getD 0

/-- The body of `GET /api/downloads/:assetId` and
`POST /api/downloads/:assetId` responses. -/
structure DownloadResponse where
  success : Bool
  downloads : Nat
deriving DecidableEq

/-- `GET /api/downloads/:assetId` handler. -/
def apiGetDownloads (counts : DownloadCounts) (assetId : String) : DownloadResponse :=
  { success := true, downloads := getDownloadCount counts assetId }

/-- `POST /api/downloads/:assetId` handler:
`downloadCounts[assetId] = (downloadCounts[assetId] || 0) + 1`, then the
response reads the stored value back.  Returns the new map and the
response; the best-effort file flush has no effect on either. -/
def apiPostDownloads (counts : DownloadCounts) (assetId : String) :
    DownloadCounts × DownloadResponse :=
  let counts' : DownloadCounts :=
    fun k => if k = assetId then some (getDownloadCount counts assetId + 1) else counts k
  (counts', { success := true, downloads := getDownloadCount counts' assetId })

/-- An empty Freepik payload, used as a fixture in witnesses. -/
def emptyFreepikPayload : FreepikPayload := { data := none, meta := none }

/-- An empty IconScout payload, used as a fixture in witnesses. -/
def emptyISPayload : ISPayload := { response := none }

/-- A Freepik provider that always succeeds with a fixed payload. -/
def constFreepikNet (d : FreepikPayload) : FreepikNet := fun _ => .ok d

/-- An IconScout provider that always succeeds with a fixed payload. -/
def constIconScoutNet (d : ISPayload) : IconScoutNet := fun _ => .ok d

/-- A provider that always succeeds with the empty Freepik payload. -/
def okFreepikNet : FreepikNet := constFreepikNet emptyFreepikPayload

/-- A provider that always succeeds with the empty IconScout payload. -/
def okIconScoutNet : IconScoutNet := constIconScoutNet emptyISPayload

/-- A Freepik provider that always fails with a fixed upstream error. -/
def failFreepikNet (e : UpstreamError) : FreepikNet := fun _ => .error e

/-- An IconScout provider that always fails with a fixed upstream error. -/
def failIconScoutNet (e : UpstreamError) : IconScoutNet := fun _ => .error e

/-- The failure shape C4 requires of a search response produced from an
upstream error `e`: failed envelope with empty data, populated error and
message strings, and an HTTP status mirroring `e.status` with default
500. -/
def failsLike {α : Type} (resp : SearchResponse α) (e : UpstreamError) : Prop :=
  resp.success = false
  ∧ resp.data = []
  ∧ resp.error.getD "" ≠ ""
  ∧ resp.message.getD "" ≠ ""
  ∧ (e.status = none → resp.status = 500)
  ∧ (0 < e.status.getD 0 → resp.status = e.status.getD 0)

/-- A resource item carrying both a full-resolution image URL and a
thumbnail keyed `small`, used to probe the thumbnail preference order. -/
def c3ResourceItem : FreepikItem :=
  { id := 7, description := none, name := none, title := some "Rocket",
    filename := none,
    thumbnails := some [⟨none, some "small", some "https://cdn.example/small7.png"⟩],
    imageSourceUrl := some "https://cdn.example/full7.png" }

/-- An icon item whose `title` and `filename` are present but whose
`description` and `name` are absent, used to probe the display-name
fallback chain of the icon transform. -/
def c6IconItem : FreepikItem :=
  { id := 3, description := none, name := none, title := some "Rocket Ship",
    filename := some "rocket.svg", thumbnails := none, imageSourceUrl := none }

/-- A concrete upstream failure (a 404 with a transport message), used as
a fixture in witnesses. -/
def c4UpstreamErr : UpstreamError :=
  { status := some 404, dataMessage := none,
    message := "Request failed with status code 404" }

end PeelJoy

namespace PeelJoy

theorem jsOrS_of_falsy (a b : Option String) (h : strFalsy a = true) :
    jsOrS a b = b := by
  simp [jsOrS, h]

theorem jsOrS_of_truthy (a b : Option String) (h : strFalsy a = false) :
    jsOrS a b = a := by
  simp [jsOrS, h]

theorem jsOrD_of_falsy (a : Option String) (d : String) (h : strFalsy a = true) :
    jsOrD a d = d := by
  simp [jsOrD, h]

theorem jsOrD_of_truthy (a : Option String) (d : String) (h : strFalsy a = false) :
    jsOrD a d = a.getD "" := by
  simp [jsOrD, h]

theorem strFalsy_some_iff (s : String) : strFalsy (some s) = false ↔ s ≠ "" := by
  simp [strFalsy]

theorem jsOrD_ne_empty (a : Option String) (d : String) (hd : d ≠ "") :
    jsOrD a d ≠ "" := by
  unfold jsOrD
  by_cases h : strFalsy a = true
  · simp [h, hd]
  · have h' : strFalsy a = false := by simpa using h
    simp only [h', if_false, Bool.false_eq_true]
    cases a with
    | none => simp [strFalsy] at h'
    | some s =>
      simp [strFalsy] at h'
      simpa using h'

theorem fetchFromFreepik_no_key (net : FreepikNet) (req : FreepikRequest) :
    fetchFromFreepik none net req = (.error (.config freepikConfigMsg), []) := by
  simp [fetchFromFreepik, strFalsy]

theorem fetchFromIconScout_no_key (net : IconScoutNet) (req : IconScoutRequest) :
    fetchFromIconScout none net req = (.error (.config iconscoutConfigMsg), []) := by
  simp [fetchFromIconScout, strFalsy]

/-- C5: if the required credential environment variable is unset, every
search call of either variant fails immediately with the descriptive
configuration error and issues no outbound network request (its request
trace is empty). -/
theorem c5_missing_credential_fails_fast
    (netF : FreepikNet) (netI : IconScoutNet)
    (reqF : FreepikRequest) (reqI : IconScoutRequest)
    (q : Option String) (page per_page : Option Nat) (assetName : Option String) :
    (fetchFromFreepik none netF reqF = (.error (.config freepikConfigMsg), [])
      ∧ freepikConfigMsg ≠ "")
    ∧ (fetchFromIconScout none netI reqI = (.error (.config iconscoutConfigMsg), [])
      ∧ iconscoutConfigMsg ≠ "")
    ∧ ((apiIconsFreepik none netF q page per_page).2 = []
      ∧ (apiIconsFreepik none netF q page per_page).1.success = false)
    ∧ ((api3dIconsFreepik none netF q page per_page).2 = []
      ∧ (api3dIconsFreepik none netF q page per_page).1.success = false)
    ∧ ((apiIllustrationsFreepik none netF q page per_page).2 = []
      ∧ (apiIllustrationsFreepik none netF q page per_page).1.success = false)
    ∧ ((apiLottieFreepik none netF q page per_page).2 = []
      ∧ (apiLottieFreepik none netF q page per_page).1.success = false)
    ∧ ((apiSearchFreepik none netF q page per_page assetName).2 = []
      ∧ (apiSearchFreepik none netF q page per_page assetName).1.success = false)
    ∧ ((apiIconsIconScout none netI q page per_page).2 = []
      ∧ (apiIconsIconScout none netI q page per_page).1.success = false)
    ∧ ((api3dIconsIconScout none netI q page per_page).2 = []
      ∧ (api3dIconsIconScout none netI q page per_page).1.success = false)
    ∧ ((apiIllustrationsIconScout none netI q page per_page).2 = []
      ∧ (apiIllustrationsIconScout none netI q page per_page).1.success = false)
    ∧ ((apiLottieIconScout none netI q page per_page).2 = []
      ∧ (apiLottieIconScout none netI q page per_page).1.success = false)
    ∧ ((apiSearchIconScout none netI q page per_page assetName).2 = []
      ∧ (apiSearchIconScout none netI q page per_page assetName).1.success = false) := by
  refine ⟨⟨fetchFromFreepik_no_key netF reqF, by decide⟩,
    ⟨fetchFromIconScout_no_key netI reqI, by decide⟩, ?_, ?_, ?_, ?_, ?_, ?_, ?_, ?_, ?_, ?_⟩ <;>
    constructor <;>
    simp [apiIconsFreepik, api3dIconsFreepik, apiIllustrationsFreepik, apiLottieFreepik,
      apiSearchFreepik, apiIconsIconScout, api3dIconsIconScout, apiIllustrationsIconScout,
      apiLottieIconScout, apiSearchIconScout, fetchFromFreepik, fetchFromIconScout,
      strFalsy, errorResponse]

/-- C7: an increment of an asset id followed immediately by a get of the
same id returns the incremented value: the previous count (0 if the id
was unseen) plus one; the POST response itself also reports that value. -/
theorem c7_increment_then_get (counts : DownloadCounts) (assetId : String) :
    (apiGetDownloads (apiPostDownloads counts assetId).1 assetId).downloads
      = getDownloadCount counts assetId + 1
    ∧ (apiPostDownloads counts assetId).2.downloads
      = getDownloadCount counts assetId + 1 := by
  constructor <;> simp [apiGetDownloads, apiPostDownloads, getDownloadCount]

/-- C8: two searches on the Freepik `/api/search` route with the same
term, page, page size and asset kind against an unchanged provider yield
the same sequence of NormalizedAsset ids. -/
theorem c8_search_idempotent (apiKey : Option String) (net1 net2 : FreepikNet)
    (q : Option String) (page per_page : Option Nat) (asset : Option String)
    (h : net1 = net2) :
    ((apiSearchFreepik apiKey net1 q page per_page asset).1.data.map fun a => a.id)
      = ((apiSearchFreepik apiKey net2 q page per_page asset).1.data.map fun a => a.id) := by
  subst h
  rfl

theorem c8_search_idempotent_witness :
    okFreepikNet = okFreepikNet
    ∧ ((apiSearchFreepik (some "k") okFreepikNet none none none none).1.data.map fun a => a.id)
      = ((apiSearchFreepik (some "k") okFreepikNet none none none none).1.data.map fun a => a.id) :=
  ⟨rfl, c8_search_idempotent (some "k") okFreepikNet okFreepikNet none none none none rfl⟩

/-- C9: incrementing the download counter for one asset id leaves the
count of every other asset id unchanged. -/
theorem c9_increment_frame (counts : DownloadCounts) (assetId other : String)
    (h : other ≠ assetId) :
    getDownloadCount (apiPostDownloads counts assetId).1 other
      = getDownloadCount counts other := by
  simp [apiPostDownloads, getDownloadCount, h]

theorem c9_increment_frame_witness :
    ("b" : String) ≠ "a"
    ∧ getDownloadCount (apiPostDownloads (fun _ => none) "a").1 "b"
      = getDownloadCount (fun _ => none) "b" :=
  ⟨by decide, c9_increment_frame (fun _ => none) "a" "b" (by decide)⟩

theorem fetchFromFreepik_trace (apiKey : Option String) (net : FreepikNet)
    (req : FreepikRequest) (h : strFalsy apiKey = false) :
    (fetchFromFreepik apiKey net req).2 = [req] := by
  unfold fetchFromFreepik
  rw [h]
  cases net req <;> simp

theorem fetchFromIconScout_trace (clientId : Option String) (net : IconScoutNet)
    (req : IconScoutRequest) (h : strFalsy clientId = false) :
    (fetchFromIconScout clientId net req).2 = [req] := by
  unfold fetchFromIconScout
  rw [h]
  cases net req <;> simp

theorem apiIconsFreepik_trace (apiKey : Option String) (net : FreepikNet)
    (q : Option String) (page pp : Option Nat) (h : strFalsy apiKey = false) :
    (apiIconsFreepik apiKey net q page pp).2
      = [iconsFreepikRequest (q.getD "popular") (page.getD 1) (pp.getD 20)] := by
  unfold apiIconsFreepik
  rw [← fetchFromFreepik_trace apiKey net
    (iconsFreepikRequest (q.getD "popular") (page.getD 1) (pp.getD 20)) h]
  cases hfe : fetchFromFreepik apiKey net
      (iconsFreepikRequest (q.getD "popular") (page.getD 1) (pp.getD 20)) with
  | mk res tr => cases res <;> simp

theorem api3dIconsFreepik_trace (apiKey : Option String) (net : FreepikNet)
    (q : Option String) (page pp : Option Nat) (h : strFalsy apiKey = false) :
    (api3dIconsFreepik apiKey net q page pp).2
      = [threeDIconsFreepikRequest (q.getD "popular") (page.getD 1) (pp.getD 20)] := by
  unfold api3dIconsFreepik
  rw [← fetchFromFreepik_trace apiKey net
    (threeDIconsFreepikRequest (q.getD "popular") (page.getD 1) (pp.getD 20)) h]
  cases hfe : fetchFromFreepik apiKey net
      (threeDIconsFreepikRequest (q.getD "popular") (page.getD 1) (pp.getD 20)) with
  | mk res tr => cases res <;> simp

theorem apiIllustrationsFreepik_trace (apiKey : Option String) (net : FreepikNet)
    (q : Option String) (page pp : Option Nat) (h : strFalsy apiKey = false) :
    (apiIllustrationsFreepik apiKey net q page pp).2
      = [illustrationsFreepikRequest (q.getD "popular") (page.getD 1) (pp.getD 20)] := by
  unfold apiIllustrationsFreepik
  rw [← fetchFromFreepik_trace apiKey net
    (illustrationsFreepikRequest (q.getD "popular") (page.getD 1) (pp.getD 20)) h]
  cases hfe : fetchFromFreepik apiKey net
      (illustrationsFreepikRequest (q.getD "popular") (page.getD 1) (pp.getD 20)) with
  | mk res tr => cases res <;> simp

theorem apiLottieFreepik_trace (apiKey : Option String) (net : FreepikNet)
    (q : Option String) (page pp : Option Nat) (h : strFalsy apiKey = false) :
    (apiLottieFreepik apiKey net q page pp).2
      = [lottieFreepikRequest (q.getD "popular") (page.getD 1) (pp.getD 20)] := by
  unfold apiLottieFreepik
  rw [← fetchFromFreepik_trace apiKey net
    (lottieFreepikRequest (q.getD "popular") (page.getD 1) (pp.getD 20)) h]
  cases hfe : fetchFromFreepik apiKey net
      (lottieFreepikRequest (q.getD "popular") (page.getD 1) (pp.getD 20)) with
  | mk res tr => cases res <;> simp

theorem apiSearchFreepik_trace (apiKey : Option String) (net : FreepikNet)
    (q : Option String) (page pp : Option Nat) (asset : Option String)
    (h : strFalsy apiKey = false) :
    (apiSearchFreepik apiKey net q page pp asset).2
      = [searchFreepikRequest (q.getD "popular") (page.getD 1) (pp.getD 20) (asset.getD "icon")] := by
  unfold apiSearchFreepik
  rw [← fetchFromFreepik_trace apiKey net
    (searchFreepikRequest (q.getD "popular") (page.getD 1) (pp.getD 20) (asset.getD "icon")) h]
  cases hfe : fetchFromFreepik apiKey net
      (searchFreepikRequest (q.getD "popular") (page.getD 1) (pp.getD 20) (asset.getD "icon")) with
  | mk res tr => cases res <;> simp

theorem apiIconsIconScout_trace (clientId : Option String) (net : IconScoutNet)
    (q : Option String) (page pp : Option Nat) (h : strFalsy clientId = false) :
    (apiIconsIconScout clientId net q page pp).2
      = [iconScoutSearchRequest "icon" (q.getD "popular") (page.getD 1) (pp.getD 20)] := by
  unfold apiIconsIconScout
  rw [← fetchFromIconScout_trace clientId net
    (iconScoutSearchRequest "icon" (q.getD "popular") (page.getD 1) (pp.getD 20)) h]
  cases hfe : fetchFromIconScout clientId net
      (iconScoutSearchRequest "icon" (q.getD "popular") (page.getD 1) (pp.getD 20)) with
  | mk res tr => cases res <;> simp

theorem api3dIconsIconScout_trace (clientId : Option String) (net : IconScoutNet)
    (q : Option String) (page pp : Option Nat) (h : strFalsy clientId = false) :
    (api3dIconsIconScout clientId net q page pp).2
      = [iconScoutSearchRequest "3d" (q.getD "popular") (page.getD 1) (pp.getD 20)] := by
  unfold api3dIconsIconScout
  rw [← fetchFromIconScout_trace clientId net
    (iconScoutSearchRequest "3d" (q.getD "popular") (page.getD 1) (pp.getD 20)) h]
  cases hfe : fetchFromIconScout clientId net
      (iconScoutSearchRequest "3d" (q.getD "popular") (page.getD 1) (pp.getD 20)) with
  | mk res tr => cases res <;> simp

theorem apiIllustrationsIconScout_trace (clientId : Option String) (net : IconScoutNet)
    (q : Option String) (page pp : Option Nat) (h : strFalsy clientId = false) :
    (apiIllustrationsIconScout clientId net q page pp).2
      = [iconScoutSearchRequest "illustration" (q.getD "popular") (page.getD 1) (pp.getD 20)] := by
  unfold apiIllustrationsIconScout
  rw [← fetchFromIconScout_trace clientId net
    (iconScoutSearchRequest "illustration" (q.getD "popular") (page.getD 1) (pp.getD 20)) h]
  cases hfe : fetchFromIconScout clientId net
      (iconScoutSearchRequest "illustration" (q.getD "popular") (page.getD 1) (pp.getD 20)) with
  | mk res tr => cases res <;> simp

theorem apiLottieIconScout_trace (clientId : Option String) (net : IconScoutNet)
    (q : Option String) (page pp : Option Nat) (h : strFalsy clientId = false) :
    (apiLottieIconScout clientId net q page pp).2
      = [iconScoutSearchRequest "lottie" (q.getD "popular") (page.getD 1) (pp.getD 20)] := by
  unfold apiLottieIconScout
  rw [← fetchFromIconScout_trace clientId net
    (iconScoutSearchRequest "lottie" (q.getD "popular") (page.getD 1) (pp.getD 20)) h]
  cases hfe : fetchFromIconScout clientId net
      (iconScoutSearchRequest "lottie" (q.getD "popular") (page.getD 1) (pp.getD 20)) with
  | mk res tr => cases res <;> simp

theorem apiSearchIconScout_trace (clientId : Option String) (net : IconScoutNet)
    (q : Option String) (page pp : Option Nat) (asset : Option String)
    (h : strFalsy clientId = false) :
    (apiSearchIconScout clientId net q page pp asset).2
      = [iconScoutSearchRequest (asset.getD "icon") (q.getD "popular") (page.getD 1) (pp.getD 20)] := by
  unfold apiSearchIconScout
  rw [← fetchFromIconScout_trace clientId net
    (iconScoutSearchRequest (asset.getD "icon") (q.getD "popular") (page.getD 1) (pp.getD 20)) h]
  cases hfe : fetchFromIconScout clientId net
      (iconScoutSearchRequest (asset.getD "icon") (q.getD "popular") (page.getD 1) (pp.getD 20)) with
  | mk res tr => cases res <;> simp

theorem reqPageSize_search (q : String) (page pp : Nat) (asset : String) :
    reqPageSize (searchFreepikRequest q page pp asset) = some (min pp 100) := by
  unfold searchFreepikRequest
  by_cases h : asset = "icon" <;> simp [h, reqPageSize]

/-- C1 (counterexample): on the IconScout variant of `GET /api/icons`, a
request with `per_page = 500` forwards a provider request whose page-size
parameter is the raw 500, not the clamped minimum with the provider
maximum 100. -/
theorem c1_per_page_counterexample :
    ((apiIconsIconScout (some "k") okIconScoutNet none none (some 500)).2.map
      fun r => r.per_page) = [500]
    ∧ (500 : Nat) ≠ min 500 100 := by
  constructor
  · rfl
  · decide

/-- C1 (amended): the Freepik integration forwards the page size
`min per_page 100` on every one of its search routes, but the IconScout
integration forwards `per_page` verbatim on every one of its search
routes — page-size clamping holds for the Freepik provider integration
only. -/
theorem c1_page_size_forwarding (apiKey : Option String) (hkey : strFalsy apiKey = false)
    (netF : FreepikNet) (netI : IconScoutNet) (q : String) (page pp : Nat) (asset : String) :
    ((apiIconsFreepik apiKey netF (some q) (some page) (some pp)).2.map reqPageSize
      = [some (min pp 100)])
    ∧ ((api3dIconsFreepik apiKey netF (some q) (some page) (some pp)).2.map reqPageSize
      = [some (min pp 100)])
    ∧ ((apiIllustrationsFreepik apiKey netF (some q) (some page) (some pp)).2.map reqPageSize
      = [some (min pp 100)])
    ∧ ((apiLottieFreepik apiKey netF (some q) (some page) (some pp)).2.map reqPageSize
      = [some (min pp 100)])
    ∧ ((apiSearchFreepik apiKey netF (some q) (some page) (some pp) (some asset)).2.map reqPageSize
      = [some (min pp 100)])
    ∧ ((apiIconsIconScout apiKey netI (some q) (some page) (some pp)).2.map
        (fun r => r.per_page) = [pp])
    ∧ ((api3dIconsIconScout apiKey netI (some q) (some page) (some pp)).2.map
        (fun r => r.per_page) = [pp])
    ∧ ((apiIllustrationsIconScout apiKey netI (some q) (some page) (some pp)).2.map
        (fun r => r.per_page) = [pp])
    ∧ ((apiLottieIconScout apiKey netI (some q) (some page) (some pp)).2.map
        (fun r => r.per_page) = [pp])
    ∧ ((apiSearchIconScout apiKey netI (some q) (some page) (some pp) (some asset)).2.map
        (fun r => r.per_page) = [pp]) := by
  refine ⟨?_, ?_, ?_, ?_, ?_, ?_, ?_, ?_, ?_, ?_⟩
  · rw [apiIconsFreepik_trace apiKey netF _ _ _ hkey]
    simp [iconsFreepikRequest, reqPageSize]
  · rw [api3dIconsFreepik_trace apiKey netF _ _ _ hkey]
    simp [threeDIconsFreepikRequest, reqPageSize]
  · rw [apiIllustrationsFreepik_trace apiKey netF _ _ _ hkey]
    simp [illustrationsFreepikRequest, reqPageSize]
  · rw [apiLottieFreepik_trace apiKey netF _ _ _ hkey]
    simp [lottieFreepikRequest, reqPageSize]
  · rw [apiSearchFreepik_trace apiKey netF _ _ _ _ hkey]
    simp [reqPageSize_search]
  · rw [apiIconsIconScout_trace apiKey netI _ _ _ hkey]
    simp [iconScoutSearchRequest]
  · rw [api3dIconsIconScout_trace apiKey netI _ _ _ hkey]
    simp [iconScoutSearchRequest]
  · rw [apiIllustrationsIconScout_trace apiKey netI _ _ _ hkey]
    simp [iconScoutSearchRequest]
  · rw [apiLottieIconScout_trace apiKey netI _ _ _ hkey]
    simp [iconScoutSearchRequest]
  · rw [apiSearchIconScout_trace apiKey netI _ _ _ _ hkey]
    simp [iconScoutSearchRequest]

theorem apiSearchFreepik_note (apiKey : Option String) (net : FreepikNet)
    (q : Option String) (page pp : Option Nat) (asset : Option String) :
    (apiSearchFreepik apiKey net q page pp asset).1.note = none := by
  unfold apiSearchFreepik
  cases hfe : fetchFromFreepik apiKey net
      (searchFreepikRequest (q.getD "popular") (page.getD 1) (pp.getD 20) (asset.getD "icon")) with
  | mk res tr => cases res <;> simp [errorResponse]

/-- C10: on the Freepik `GET /api/search` route, an asset value outside
icon/3d/illustration/vector/photo (for example `lottie`) is forwarded to
the provider's `/resources` endpoint with no content-type filter, no
style filter, no term augmentation, and no note in the response — unlike
the dedicated `GET /api/lottie` route, which augments the term with
" animation motion" and attaches a non-empty note. -/
theorem c10_search_unknown_asset (asset : String)
    (h : asset ∉ (["icon", "3d", "illustration", "vector", "photo"] : List String))
    (apiKey : Option String) (hkey : strFalsy apiKey = false)
    (netF : FreepikNet) (d : FreepikPayload) (q : String) (page pp : Nat) :
    (searchFreepikRequest q page pp asset).endpoint = "/resources"
    ∧ (searchFreepikRequest q page pp asset).term = q
    ∧ (searchFreepikRequest q page pp asset).contentTypeVector = false
    ∧ (searchFreepikRequest q page pp asset).contentTypePhoto = false
    ∧ (searchFreepikRequest q page pp asset).vectorStyle = none
    ∧ (apiSearchFreepik apiKey netF (some q) (some page) (some pp) (some asset)).2
      = [searchFreepikRequest q page pp asset]
    ∧ (apiSearchFreepik apiKey netF (some q) (some page) (some pp) (some asset)).1.note = none
    ∧ (lottieFreepikRequest q page pp).term = q ++ " animation motion"
    ∧ (apiLottieFreepik apiKey (constFreepikNet d) (some q) (some page) (some pp)).1.note
      = some freepikLottieNote
    ∧ freepikLottieNote ≠ "" := by
  simp only [List.mem_cons, List.not_mem_nil, or_false, not_or] at h
  obtain ⟨h1, h2, h3, h4, h5⟩ := h
  refine ⟨?_, ?_, ?_, ?_, ?_, ?_,
    apiSearchFreepik_note apiKey netF (some q) (some page) (some pp) (some asset), ?_, ?_, by decide⟩
  · simp [searchFreepikRequest, searchFreepikFilters, h1]
  · simp [searchFreepikRequest, searchFreepikFilters, h1]
  · simp [searchFreepikRequest, searchFreepikFilters, h1, h2, h3, h4, h5]
  · simp [searchFreepikRequest, searchFreepikFilters, h1, h2, h3, h4, h5]
  · simp [searchFreepikRequest, searchFreepikFilters, h1, h2, h3, h4, h5]
  · rw [apiSearchFreepik_trace apiKey netF _ _ _ _ hkey]
    simp
  · simp [lottieFreepikRequest]
  · simp [apiLottieFreepik, fetchFromFreepik, hkey, constFreepikNet]

/-- C2: a successful search result carries a non-empty note exactly when
the requested asset kind has no native provider category.  In the Freepik
variant only the animation kind (served by `GET /api/lottie`) lacks a
native category and only its response carries the note; every other
Freepik route and every IconScout route — where even lottie is a native
provider asset value — responds without a note, as does `GET /api/search`
of either variant for every asset value. -/
theorem c2_note_iff_non_native (apiKey : Option String) (hkey : strFalsy apiKey = false)
    (dF : FreepikPayload) (dI : ISPayload)
    (q : Option String) (page pp : Option Nat) (asset : Option String) :
    (freepikHasNativeCategory .animation = false
      ∧ (apiLottieFreepik apiKey (constFreepikNet dF) q page pp).1.note = some freepikLottieNote
      ∧ freepikLottieNote ≠ "")
    ∧ (freepikHasNativeCategory .icon = true
      ∧ (apiIconsFreepik apiKey (constFreepikNet dF) q page pp).1.note = none)
    ∧ (freepikHasNativeCategory .threeD = true
      ∧ (api3dIconsFreepik apiKey (constFreepikNet dF) q page pp).1.note = none)
    ∧ (freepikHasNativeCategory .illustration = true
      ∧ (apiIllustrationsFreepik apiKey (constFreepikNet dF) q page pp).1.note = none)
    ∧ (apiSearchFreepik apiKey (constFreepikNet dF) q page pp asset).1.note = none
    ∧ (iconScoutHasNativeCategory .animation = true
      ∧ (apiLottieIconScout apiKey (constIconScoutNet dI) q page pp).1.note = none)
    ∧ (apiIconsIconScout apiKey (constIconScoutNet dI) q page pp).1.note = none
    ∧ (api3dIconsIconScout apiKey (constIconScoutNet dI) q page pp).1.note = none
    ∧ (apiIllustrationsIconScout apiKey (constIconScoutNet dI) q page pp).1.note = none
    ∧ (apiSearchIconScout apiKey (constIconScoutNet dI) q page pp asset).1.note = none := by
  refine ⟨⟨rfl, ?_, by decide⟩, ⟨rfl, ?_⟩, ⟨rfl, ?_⟩, ⟨rfl, ?_⟩, ?_, ⟨rfl, ?_⟩, ?_, ?_, ?_, ?_⟩ <;>
    simp [apiLottieFreepik, apiIconsFreepik, api3dIconsFreepik, apiIllustrationsFreepik,
      apiSearchFreepik, apiLottieIconScout, apiIconsIconScout, api3dIconsIconScout,
      apiIllustrationsIconScout, apiSearchIconScout, fetchFromFreepik, fetchFromIconScout,
      constFreepikNet, constIconScoutNet, hkey, isSuccessResponse]

theorem errorResponse_failsLike {α : Type} (label : String) (hl : label ≠ "")
    (e : UpstreamError) (hmsg : e.message ≠ "") :
    failsLike (errorResponse label (.upstream e) : SearchResponse α) e := by
  refine ⟨rfl, rfl, ?_, ?_, ?_, ?_⟩
  · simpa [errorResponse] using hl
  · simpa [errorResponse, FetchError.toUpstream] using
      jsOrD_ne_empty e.dataMessage e.message hmsg
  · intro hs
    simp [errorResponse, FetchError.toUpstream, hs, jsOrN]
  · intro hs
    cases hstat : e.status with
    | none => rw [hstat] at hs; simp at hs
    | some st =>
      rw [hstat] at hs
      simp only [Option.getD_some] at hs
      have hne : st ≠ 0 := Nat.pos_iff_ne_zero.mp hs
      simp [errorResponse, FetchError.toUpstream, jsOrN, hstat, hne]

/-- C4: when the provider call fails, every search route of either
variant responds with `success:false`, an empty data array, non-empty
error and message strings, and an HTTP status equal to the provider's
reported status, defaulting to 500 when the provider reported none. -/
theorem c4_provider_failure_shape (apiKey : Option String) (hkey : strFalsy apiKey = false)
    (e : UpstreamError) (hmsg : e.message ≠ "")
    (q : Option String) (page pp : Option Nat) (assetName : Option String) :
    failsLike (apiIconsFreepik apiKey (failFreepikNet e) q page pp).1 e
    ∧ failsLike (api3dIconsFreepik apiKey (failFreepikNet e) q page pp).1 e
    ∧ failsLike (apiIllustrationsFreepik apiKey (failFreepikNet e) q page pp).1 e
    ∧ failsLike (apiLottieFreepik apiKey (failFreepikNet e) q page pp).1 e
    ∧ failsLike (apiSearchFreepik apiKey (failFreepikNet e) q page pp assetName).1 e
    ∧ failsLike (apiIconsIconScout apiKey (failIconScoutNet e) q page pp).1 e
    ∧ failsLike (api3dIconsIconScout apiKey (failIconScoutNet e) q page pp).1 e
    ∧ failsLike (apiIllustrationsIconScout apiKey (failIconScoutNet e) q page pp).1 e
    ∧ failsLike (apiLottieIconScout apiKey (failIconScoutNet e) q page pp).1 e
    ∧ failsLike (apiSearchIconScout apiKey (failIconScoutNet e) q page pp assetName).1 e := by
  have e1 : (apiIconsFreepik apiKey (failFreepikNet e) q page pp).1
      = errorResponse "Failed to fetch icons" (.upstream e) := by
    simp [apiIconsFreepik, fetchFromFreepik, hkey, failFreepikNet]
  have e2 : (api3dIconsFreepik apiKey (failFreepikNet e) q page pp).1
      = errorResponse "Failed to fetch 3D assets" (.upstream e) := by
    simp [api3dIconsFreepik, fetchFromFreepik, hkey, failFreepikNet]
  have e3 : (apiIllustrationsFreepik apiKey (failFreepikNet e) q page pp).1
      = errorResponse "Failed to fetch illustrations" (.upstream e) := by
    simp [apiIllustrationsFreepik, fetchFromFreepik, hkey, failFreepikNet]
  have e4 : (apiLottieFreepik apiKey (failFreepikNet e) q page pp).1
      = errorResponse "Failed to fetch animations" (.upstream e) := by
    simp [apiLottieFreepik, fetchFromFreepik, hkey, failFreepikNet]
  have e5 : (apiSearchFreepik apiKey (failFreepikNet e) q page pp assetName).1
      = errorResponse "Failed to fetch assets" (.upstream e) := by
    simp [apiSearchFreepik, fetchFromFreepik, hkey, failFreepikNet]
  have e6 : (apiIconsIconScout apiKey (failIconScoutNet e) q page pp).1
      = errorResponse "Failed to fetch icons" (.upstream e) := by
    simp [apiIconsIconScout, fetchFromIconScout, hkey, failIconScoutNet]
  have e7 : (api3dIconsIconScout apiKey (failIconScoutNet e) q page pp).1
      = errorResponse "Failed to fetch 3D icons" (.upstream e) := by
    simp [api3dIconsIconScout, fetchFromIconScout, hkey, failIconScoutNet]
  have e8 : (apiIllustrationsIconScout apiKey (failIconScoutNet e) q page pp).1
      = errorResponse "Failed to fetch illustrations" (.upstream e) := by
    simp [apiIllustrationsIconScout, fetchFromIconScout, hkey, failIconScoutNet]
  have e9 : (apiLottieIconScout apiKey (failIconScoutNet e) q page pp).1
      = errorResponse "Failed to fetch Lottie animations" (.upstream e) := by
    simp [apiLottieIconScout, fetchFromIconScout, hkey, failIconScoutNet]
  have e10 : (apiSearchIconScout apiKey (failIconScoutNet e) q page pp assetName).1
      = errorResponse "Failed to fetch assets" (.upstream e) := by
    simp [apiSearchIconScout, fetchFromIconScout, hkey, failIconScoutNet]
  rw [e1, e2, e3, e4, e5, e6, e7, e8, e9, e10]
  exact ⟨errorResponse_failsLike _ (by decide) e hmsg, errorResponse_failsLike _ (by decide) e hmsg,
    errorResponse_failsLike _ (by decide) e hmsg, errorResponse_failsLike _ (by decide) e hmsg,
    errorResponse_failsLike _ (by decide) e hmsg, errorResponse_failsLike _ (by decide) e hmsg,
    errorResponse_failsLike _ (by decide) e hmsg, errorResponse_failsLike _ (by decide) e hmsg,
    errorResponse_failsLike _ (by decide) e hmsg, errorResponse_failsLike _ (by decide) e hmsg⟩

/-- C3 (counterexample): `c3ResourceItem` carries a thumbnail tagged with
the specific key `small`, yet the resource transform sets `png_128` to
the full-resolution image URL, not that thumbnail — the claimed
preference order (sized thumbnail first, full-resolution image last) is
reversed in `transformResourceResponse`. -/
theorem c3_thumbnail_order_counterexample :
    findThumbByKey c3ResourceItem "small" = some "https://cdn.example/small7.png"
    ∧ ((transformResourceResponse { data := some [c3ResourceItem], meta := none }).map
        fun a => a.png_128) = [some "https://cdn.example/full7.png"]
    ∧ (some "https://cdn.example/full7.png" : Option String)
      ≠ some "https://cdn.example/small7.png" := by
  refine ⟨rfl, rfl, by decide⟩

/-- C3 (amended): in the icon transform a thumbnail tagged with the
specific pixel size is preferred, else the first available thumbnail,
with no full-resolution fallback; in the resource transform the
full-resolution image URL is preferred, falling back to the
`small`-keyed thumbnail for the sized fields and to the first thumbnail
for `thumb`, while `preview` is the full-resolution image URL alone. -/
theorem c3_thumbnail_order (item : FreepikItem) :
    (strFalsy (findThumbBySize item 128) = false →
      (transformIconItem item).png_128 = findThumbBySize item 128)
    ∧ (strFalsy (findThumbBySize item 128) = true →
      (transformIconItem item).png_128 = firstThumbUrl item)
    ∧ (strFalsy (findThumbBySize item 64) = false →
      (transformIconItem item).png_64 = findThumbBySize item 64)
    ∧ (strFalsy (findThumbBySize item 64) = true →
      (transformIconItem item).png_64 = firstThumbUrl item)
    ∧ (transformIconItem item).thumb = firstThumbUrl item
    ∧ (transformIconItem item).preview = firstThumbUrl item
    ∧ (strFalsy item.imageSourceUrl = false →
      (transformResourceItem item).png_128 = item.imageSourceUrl
      ∧ (transformResourceItem item).thumb = item.imageSourceUrl)
    ∧ (strFalsy item.imageSourceUrl = true →
      (transformResourceItem item).png_128 = findThumbByKey item "small"
      ∧ (transformResourceItem item).thumb = firstThumbUrl item)
    ∧ (transformResourceItem item).preview = item.imageSourceUrl := by
  refine ⟨?_, ?_, ?_, ?_, rfl, rfl, ?_, ?_, rfl⟩ <;> intro h <;>
    simp [transformIconItem, transformResourceItem, jsOrS, h]

/-- C6 (counterexample): an icon item whose `title` is present but whose
`description` and `name` are absent maps to the display name
`"Untitled Icon"`: the icon transform ignores `title`/`filename` and its
final literal is not `"Untitled"`, so the claimed ordered fallback
(title, then filename, then `"Untitled"`) does not govern the icon
transform. -/
theorem c6_display_name_counterexample :
    c6IconItem.title = some "Rocket Ship"
    ∧ ((transformIconResponse { data := some [c6IconItem], meta := none }).map
        fun a => a.name) = ["Untitled Icon"]
    ∧ ("Untitled Icon" : String) ≠ "Rocket Ship"
    ∧ ("Untitled Icon" : String) ≠ "Untitled" := by
  refine ⟨rfl, rfl, by decide, by decide⟩

/-- C6 (amended): the resource transform derives the display name by the
ordered fallback title, then filename, then the literal `"Untitled"`,
while the icon transform uses description, then name, then the literal
`"Untitled Icon"`; in both transforms the resulting display name is never
empty. -/
theorem c6_display_name_fallback (item : FreepikItem) :
    (strFalsy item.title = false →
      (transformResourceItem item).name = item.title.getD "")
    ∧ (strFalsy item.title = true → strFalsy item.filename = false →
      (transformResourceItem item).name = item.filename.getD "")
    ∧ (strFalsy item.title = true → strFalsy item.filename = true →
      (transformResourceItem item).name = "Untitled")
    ∧ (strFalsy item.description = false →
      (transformIconItem item).name = item.description.getD "")
    ∧ (strFalsy item.description = true → strFalsy item.name = false →
      (transformIconItem item).name = item.name.getD "")
    ∧ (strFalsy item.description = true → strFalsy item.name = true →
      (transformIconItem item).name = "Untitled Icon")
    ∧ (transformResourceItem item).name ≠ ""
    ∧ (transformIconItem item).name ≠ "" := by
  refine ⟨?_, ?_, ?_, ?_, ?_, ?_, ?_, ?_⟩
  · intro h
    simp only [transformResourceItem]
    rw [jsOrS_of_truthy _ _ h, jsOrD_of_truthy _ _ h]
  · intro h1 h2
    simp only [transformResourceItem]
    rw [jsOrS_of_falsy _ _ h1, jsOrD_of_truthy _ _ h2]
  · intro h1 h2
    simp only [transformResourceItem]
    rw [jsOrS_of_falsy _ _ h1, jsOrD_of_falsy _ _ h2]
  · intro h
    simp only [transformIconItem]
    rw [jsOrS_of_truthy _ _ h, jsOrD_of_truthy _ _ h]
  · intro h1 h2
    simp only [transformIconItem]
    rw [jsOrS_of_falsy _ _ h1, jsOrD_of_truthy _ _ h2]
  · intro h1 h2
    simp only [transformIconItem]
    rw [jsOrS_of_falsy _ _ h1, jsOrD_of_falsy _ _ h2]
  · exact jsOrD_ne_empty _ _ (by decide)
  · exact jsOrD_ne_empty _ _ (by decide)

theorem c1_page_size_forwarding_witness :
    strFalsy (some "k") = false
    ∧ (((apiIconsFreepik (some "k") okFreepikNet (some "cat") (some 1) (some 500)).2.map reqPageSize
      = [some (min 500 100)])
    ∧ ((api3dIconsFreepik (some "k") okFreepikNet (some "cat") (some 1) (some 500)).2.map reqPageSize
      = [some (min 500 100)])
    ∧ ((apiIllustrationsFreepik (some "k") okFreepikNet (some "cat") (some 1) (some 500)).2.map reqPageSize
      = [some (min 500 100)])
    ∧ ((apiLottieFreepik (some "k") okFreepikNet (some "cat") (some 1) (some 500)).2.map reqPageSize
      = [some (min 500 100)])
    ∧ ((apiSearchFreepik (some "k") okFreepikNet (some "cat") (some 1) (some 500) (some "3d")).2.map reqPageSize
      = [some (min 500 100)])
    ∧ ((apiIconsIconScout (some "k") okIconScoutNet (some "cat") (some 1) (some 500)).2.map
        (fun r => r.per_page) = [500])
    ∧ ((api3dIconsIconScout (some "k") okIconScoutNet (some "cat") (some 1) (some 500)).2.map
        (fun r => r.per_page) = [500])
    ∧ ((apiIllustrationsIconScout (some "k") okIconScoutNet (some "cat") (some 1) (some 500)).2.map
        (fun r => r.per_page) = [500])
    ∧ ((apiLottieIconScout (some "k") okIconScoutNet (some "cat") (some 1) (some 500)).2.map
        (fun r => r.per_page) = [500])
    ∧ ((apiSearchIconScout (some "k") okIconScoutNet (some "cat") (some 1) (some 500) (some "3d")).2.map
        (fun r => r.per_page) = [500])) :=
  ⟨by decide,
    c1_page_size_forwarding (some "k") (by decide) okFreepikNet okIconScoutNet "cat" 1 500 "3d"⟩

theorem c2_note_iff_non_native_witness :
    strFalsy (some "k") = false
    ∧ ((freepikHasNativeCategory .animation = false
      ∧ (apiLottieFreepik (some "k") (constFreepikNet emptyFreepikPayload) none none none).1.note
        = some freepikLottieNote
      ∧ freepikLottieNote ≠ "")
    ∧ (freepikHasNativeCategory .icon = true
      ∧ (apiIconsFreepik (some "k") (constFreepikNet emptyFreepikPayload) none none none).1.note = none)
    ∧ (freepikHasNativeCategory .threeD = true
      ∧ (api3dIconsFreepik (some "k") (constFreepikNet emptyFreepikPayload) none none none).1.note = none)
    ∧ (freepikHasNativeCategory .illustration = true
      ∧ (apiIllustrationsFreepik (some "k") (constFreepikNet emptyFreepikPayload) none none none).1.note = none)
    ∧ (apiSearchFreepik (some "k") (constFreepikNet emptyFreepikPayload) none none none none).1.note = none
    ∧ (iconScoutHasNativeCategory .animation = true
      ∧ (apiLottieIconScout (some "k") (constIconScoutNet emptyISPayload) none none none).1.note = none)
    ∧ (apiIconsIconScout (some "k") (constIconScoutNet emptyISPayload) none none none).1.note = none
    ∧ (api3dIconsIconScout (some "k") (constIconScoutNet emptyISPayload) none none none).1.note = none
    ∧ (apiIllustrationsIconScout (some "k") (constIconScoutNet emptyISPayload) none none none).1.note = none
    ∧ (apiSearchIconScout (some "k") (constIconScoutNet emptyISPayload) none none none none).1.note = none) :=
  ⟨by decide,
    c2_note_iff_non_native (some "k") (by decide) emptyFreepikPayload emptyISPayload none none none none⟩

theorem c4_provider_failure_shape_witness :
    strFalsy (some "k") = false
    ∧ c4UpstreamErr.message ≠ ""
    ∧ (failsLike (apiIconsFreepik (some "k") (failFreepikNet c4UpstreamErr) none none none).1 c4UpstreamErr
    ∧ failsLike (api3dIconsFreepik (some "k") (failFreepikNet c4UpstreamErr) none none none).1 c4UpstreamErr
    ∧ failsLike (apiIllustrationsFreepik (some "k") (failFreepikNet c4UpstreamErr) none none none).1 c4UpstreamErr
    ∧ failsLike (apiLottieFreepik (some "k") (failFreepikNet c4UpstreamErr) none none none).1 c4UpstreamErr
    ∧ failsLike (apiSearchFreepik (some "k") (failFreepikNet c4UpstreamErr) none none none none).1 c4UpstreamErr
    ∧ failsLike (apiIconsIconScout (some "k") (failIconScoutNet c4UpstreamErr) none none none).1 c4UpstreamErr
    ∧ failsLike (api3dIconsIconScout (some "k") (failIconScoutNet c4UpstreamErr) none none none).1 c4UpstreamErr
    ∧ failsLike (apiIllustrationsIconScout (some "k") (failIconScoutNet c4UpstreamErr) none none none).1 c4UpstreamErr
    ∧ failsLike (apiLottieIconScout (some "k") (failIconScoutNet c4UpstreamErr) none none none).1 c4UpstreamErr
    ∧ failsLike (apiSearchIconScout (some "k") (failIconScoutNet c4UpstreamErr) none none none none).1 c4UpstreamErr) :=
  ⟨by decide, by decide,
    c4_provider_failure_shape (some "k") (by decide) c4UpstreamErr (by decide) none none none none⟩

theorem c10_search_unknown_asset_witness :
    ("lottie" : String) ∉ (["icon", "3d", "illustration", "vector", "photo"] : List String)
    ∧ strFalsy (some "k") = false
    ∧ ((searchFreepikRequest "cat" 1 20 "lottie").endpoint = "/resources"
    ∧ (searchFreepikRequest "cat" 1 20 "lottie").term = "cat"
    ∧ (searchFreepikRequest "cat" 1 20 "lottie").contentTypeVector = false
    ∧ (searchFreepikRequest "cat" 1 20 "lottie").contentTypePhoto = false
    ∧ (searchFreepikRequest "cat" 1 20 "lottie").vectorStyle = none
    ∧ (apiSearchFreepik (some "k") okFreepikNet (some "cat") (some 1) (some 20) (some "lottie")).2
      = [searchFreepikRequest "cat" 1 20 "lottie"]
    ∧ (apiSearchFreepik (some "k") okFreepikNet (some "cat") (some 1) (some 20) (some "lottie")).1.note = none
    ∧ (lottieFreepikRequest "cat" 1 20).term = "cat" ++ " animation motion"
    ∧ (apiLottieFreepik (some "k") (constFreepikNet emptyFreepikPayload) (some "cat") (some 1) (some 20)).1.note
      = some freepikLottieNote
    ∧ freepikLottieNote ≠ "") :=
  ⟨by decide, by decide,
    c10_search_unknown_asset "lottie" (by decide) (some "k") (by decide) okFreepikNet
      emptyFreepikPayload "cat" 1 20⟩

end PeelJoy
